import Mathlib

/-!
Shallow embedding of the port-client core (the `PortClient` class of
`index.js` and its TypeScript sibling compiled to `dist/index.js`):
port-spec resolution, the existence oracle, the listing parser, the
kill-command builder and the top-level `execute` orchestration.

External shell execution (the `shell-exec` primitive `sh`) is modelled as
an oracle `Sh` mapping a command string to either its stdout (`.ok out`,
a resolved promise) or a rejection message (`.error m`, a rejected
promise).  Every invocation is recorded, in order, in a trace holding the
issued shell commands and the console messages (the message text passed
to `console.log`; the ANSI colour wrapper of `success`/`error` is part of
the format string, not of the message argument, and is not modelled).
-/

/-- JavaScript `includes` helper: does `pat` occur as a contiguous
substring of the char list? -/
def containsAux (pat : List Char) : List Char → Bool
  | [] => pat.isPrefixOf ([] : List Char)
  | c :: cs => pat.isPrefixOf (c :: cs) || containsAux pat cs

/-- JavaScript `String.prototype.includes`. -/
def strContains (s pat : String) : Bool :=
  containsAux pat.toList s.toList

/-- JavaScript regex class `\s` over the characters that occur in probe
output (ASCII whitespace). -/
def wsChar (c : Char) : Bool :=
  c = ' ' || c = '\t' || c = '\n' || c = '\r' || c = '\x0b' || c = '\x0c'

/-- JavaScript regex class `\w`: ASCII letters, digits and underscore. -/
def wordChar (c : Char) : Bool :=
  c.isAlphanum || c = '_'

/-- Accumulating worker of the single-character `split`. -/
def splitCharAux (sep : Char) : List Char → List Char → List String
  | acc, [] => [String.mk acc.reverse]
  | acc, c :: cs =>
    if c = sep then String.mk acc.reverse :: splitCharAux sep [] cs
    else splitCharAux sep (c :: acc) cs

/-- JavaScript `String.prototype.split` on a single-character separator:
every occurrence of the separator cuts, adjacent separators and string
ends produce empty fields. -/
def jsSplit (sep : Char) (s : String) : List String :=
  splitCharAux sep [] s.toList

/-- The newline split of probe stdout. -/
def splitLines (s : String) : List String :=
  jsSplit '\n' s

/-- JavaScript `String.prototype.trim`: strip whitespace from both ends. -/
def jsTrim (s : String) : String :=
  String.mk (((s.toList.dropWhile wsChar).reverse.dropWhile wsChar).reverse)

/-- JavaScript `String.prototype.toUpperCase` on the ASCII method names. -/
def jsToUpper (s : String) : String :=
  String.mk (s.toList.map Char.toUpper)

/-- JavaScript `Number()` coercion, on the value domain exercised by the
program: the canonical decimal digit strings (and the empty string,
which coerces to 0).  Strings outside that domain are mapped to `none`
(NaN); the exotic numeric syntaxes accepted by `Number()` (signs,
leading blanks, hex, exponents) do not occur in the quantified inputs of
the theorems below. -/
def jsNumber? (s : String) : Option Int :=
  if s = "" then some 0
  else if s.toList.all Char.isDigit then
    some (s.toList.foldl (fun acc c => 10 * acc + (c.toNat - 48)) 0 : Nat)
  else none

/-- JavaScript `Array.from(\x7b length: e - start + 1 \x7d, (_, i) => start + i)`:
the ascending consecutive integers from `start`, `e - start + 1` of them;
a non-positive (or NaN) length yields the empty array, which the `toNat`
truncation reproduces. -/
def jsRangeList (start e : Int) : List Int :=
  (List.range (e - start + 1).toNat).map (fun i : Nat => start + (i : Int))

/-- The user-supplied ports value (`this.ports`), abstracted to the
`Number()` coercion of each supplied element: an array of values, or a
single scalar value (`none` models a value that coerces to NaN; the JS
`null`/`undefined` ports coerce to 0/NaN respectively). -/
inductive PortsInput where
  | arr : List (Option Int) → PortsInput
  | scalar : Option Int → PortsInput
deriving DecidableEq

/-- Template interpolation of `this.ports` (used only by the fast branch
of `listActivePorts`, which issues `lsof -i :$\x7bthis.ports\x7d`). -/
def PortsInput.display : PortsInput → String
  | .arr xs => String.intercalate "," (xs.map (fun x =>
      match x with
      | some n => toString n
      | none => "NaN"))
  | .scalar (some n) => toString n
  | .scalar none => "NaN"

/-- The constructor options snapshot of `PortClient`, together with the
ambient `process.platform`.  Field order follows the constructor:
method, action, interactive, dryRun, verbose, graceful, filter, range,
speed, platform. -/
structure Config where
  method : String
  action : String
  interactive : Bool
  dryRun : Bool
  verbose : Bool
  graceful : Bool
  filter : Option String
  range : Option String
  speed : String
  platform : String
deriving DecidableEq

/-- `PortClient.parsePorts`: an array is coerced elementwise and falsy
results (0, NaN) are dropped; otherwise a truthy `range` string is split
on the hyphen into coerced start/end bounds and expanded to the closed
interval; otherwise the scalar is coerced, a falsy result yielding no
ports.  With a single range part the `end` bound is `undefined` (NaN),
and any NaN bound makes the computed array length NaN, hence the empty
array. -/
def parsePorts (ports : PortsInput) (range : Option String) : List Int :=
  match ports with
  | .arr xs => (xs.filterMap id).filter (fun n => decide (n ≠ 0))
  | .scalar v =>
    match range with
    | some r =>
      if r = "" then
        match v with
        | some n => if n = 0 then [] else [n]
        | none => []
      else
        match (jsSplit '-' r).map jsNumber? with
        | some a :: some b :: _ => jsRangeList a b
        | _ => []
    | none =>
      match v with
      | some n => if n = 0 then [] else [n]
      | none => []

/-- Outcome of one `sh` invocation: resolved stdout or rejection message. -/
abbrev Sh := String → Except String String

/-- Observable side effects of a run: the shell commands issued and the
console messages reported, each in execution order. -/
structure Trace where
  cmds : List String
  msgs : List String
deriving DecidableEq

/-- The empty trace. -/
def Trace.nil : Trace := ⟨[], []⟩

/-- Sequential composition of traces. -/
def Trace.app (t u : Trace) : Trace := ⟨t.cmds ++ u.cmds, t.msgs ++ u.msgs⟩

/-- A trace holding one shell command. -/
def Trace.cmd (c : String) : Trace := ⟨[c], []⟩

/-- A trace holding one console message. -/
def Trace.msg (m : String) : Trace := ⟨[], [m]⟩

/-!
The general-listing Unix parse dialect.  `parseUnixPorts` applies the
JavaScript regex

  `(?<=:\d\x7b1,5\x7d)->|\b\d\x7b1,5\x7d(?=->|\s+\(CLOSED\)|\s+\(ESTABLISHED\)|\s+\(LISTEN\))`

globally to each line and collects the matched substrings.  The matcher
below implements exactly that pattern: at each position the first
alternative (a lookbehind for a colon followed by one to five digits,
then the literal arrow) is tried, then the second (a word boundary, a
greedy run of one to five digits, and a lookahead for an arrow or for
whitespace followed by a parenthesised socket-state marker); on success
the scan resumes after the matched text, otherwise one character ahead.
-/

/-- Lookahead `(?=->|\s+\(CLOSED\)|\s+\(ESTABLISHED\)|\s+\(LISTEN\))`.
The greedy `\s+` can only hand over to the literal parenthesis at the
end of the maximal whitespace run, since a parenthesis is not
whitespace. -/
def stateLookAhead (l : List Char) : Bool :=
  "->".toList.isPrefixOf l ||
  (let w := l.takeWhile wsChar
   decide (0 < w.length) &&
     ("(CLOSED)".toList.isPrefixOf (l.drop w.length) ||
      "(ESTABLISHED)".toList.isPrefixOf (l.drop w.length) ||
      "(LISTEN)".toList.isPrefixOf (l.drop w.length)))

/-- Lookbehind `(?<=:\d\x7b1,5\x7d)` at the position whose reversed left
context is `before`: some run of `k` digits (1 ≤ k ≤ 5) immediately to
the left, preceded by a colon. -/
def colonDigitsBehind (before : List Char) : Bool :=
  (List.range 5).any (fun k =>
    decide ((before.take (k + 1)).length = k + 1) &&
    (before.take (k + 1)).all Char.isDigit &&
    before.get? (k + 1) == some ':')

/-- Greedy `\d\x7b1,5\x7d` followed by the state lookahead: the largest
`j ≤ 5` such that the next `j` characters are digits and the lookahead
holds after them (backtracking from five digits down to one). -/
def digitsTakeLen (rest : List Char) : Option Nat :=
  if decide ((rest.take 5).length = 5) && (rest.take 5).all Char.isDigit
      && stateLookAhead (rest.drop 5) then some 5
  else if decide ((rest.take 4).length = 4) && (rest.take 4).all Char.isDigit
      && stateLookAhead (rest.drop 4) then some 4
  else if decide ((rest.take 3).length = 3) && (rest.take 3).all Char.isDigit
      && stateLookAhead (rest.drop 3) then some 3
  else if decide ((rest.take 2).length = 2) && (rest.take 2).all Char.isDigit
      && stateLookAhead (rest.drop 2) then some 2
  else if decide ((rest.take 1).length = 1) && (rest.take 1).all Char.isDigit
      && stateLookAhead (rest.drop 1) then some 1
  else none

/-- One attempt of the whole pattern at the current position: the
matched text and its length (always positive).  `before` is the
reversed left context, `rest` the remaining input. -/
def tryMatch (before rest : List Char) : Option (String × Nat) :=
  if colonDigitsBehind before && "->".toList.isPrefixOf rest then
    some ("->", 2)
  else if before.head?.all (fun c => !wordChar c) then
    match digitsTakeLen rest with
    | some j => some (String.mk (rest.take j), j)
    | none => none
  else none

/-- Global scan of one line: repeatedly try the pattern, collecting the
matched substrings; after a match of length `len ≥ 1` the scan resumes
`len` characters ahead, otherwise one character ahead.  The fuel starts
at the line length and decreases by one per step while the input shrinks
by at least one character per step, so it never runs out on the initial
call. -/
def scanLineAux : Nat → List Char → List Char → List String
  | _, _, [] => []
  | 0, _, _ :: _ => []
  | fuel + 1, before, c :: cs =>
    match tryMatch before (c :: cs) with
    | some (m, len) =>
      m :: scanLineAux fuel (((c :: cs).take len).reverse ++ before) (cs.drop (len - 1))
    | none => scanLineAux fuel (c :: before) cs

/-- All regex matches of the general Unix dialect within one line. -/
def scanLine (line : String) : List String :=
  scanLineAux line.toList.length [] line.toList

/-- `PortClient.parseUnixPorts`: flat-map the global match over the
lines and drop the falsy entries (`null` for a line with no match,
which the flat map of empty match lists already reproduces, and the
empty string, which no match ever is). -/
def parseUnixPorts (lines : List String) : List String :=
  (List.flatten (lines.map scanLine)).filter (fun s => decide (s ≠ ""))

/-- `PortClient.parseWindowsPorts`.  The source applies
`line.match(regex)` with a `g`-flagged pattern anchored by `^`: on the
newline-free lines produced by the split there is at most one full
match, `match[1]` therefore addresses a nonexistent second match and is
always `undefined`, so the reducer never pushes and the accumulator
stays empty. -/
def parseWindowsPorts (lines : List String) : List String :=
  lines.foldl (fun acc _line => acc) []

/-- `PortClient.listActivePorts`: pick the platform- and speed-specific
listing command, run it, split its stdout into lines and parse them; a
rejected command is rethrown with the `Failed to list active ports`
wrapper. -/
def listActivePorts (cfg : Config) (ports : PortsInput) (sh : Sh) :
    Except String (List String) × Trace :=
  match sh (if cfg.platform = "win32" then "netstat -nao"
            else if cfg.speed = "fast" then "lsof -i :" ++ ports.display
            else "lsof -i -P -n") with
  | .ok out =>
    (.ok (if cfg.platform = "win32" then parseWindowsPorts (splitLines out)
          else parseUnixPorts (splitLines out)),
     Trace.cmd (if cfg.platform = "win32" then "netstat -nao"
                else if cfg.speed = "fast" then "lsof -i :" ++ ports.display
                else "lsof -i -P -n"))
  | .error m =>
    (.error ("Failed to list active ports: " ++ m),
     Trace.cmd (if cfg.platform = "win32" then "netstat -nao"
                else if cfg.speed = "fast" then "lsof -i :" ++ ports.display
                else "lsof -i -P -n"))

/-- `PortClient.isExistFast` of `index.js`: one targeted probe
`lsof -i :<port>`; the port is active iff the stdout includes the
literal `LISTEN`.  There is no catch here: a rejected probe propagates
to the caller. -/
def isExistFast (sh : Sh) (port : Int) : Except String Bool × Trace :=
  match sh ("lsof -i :" ++ toString port) with
  | .ok out => (.ok (strContains out "LISTEN"), Trace.cmd ("lsof -i :" ++ toString port))
  | .error m => (.error m, Trace.cmd ("lsof -i :" ++ toString port))

/-- `PortClient.isExistNormal` of `index.js`: fetch the full listing via
`listActivePorts` and test membership of the stringified port.  A
listing failure propagates to the caller. -/
def isExistNormal (cfg : Config) (ports : PortsInput) (sh : Sh) (port : Int) :
    Except String Bool × Trace :=
  match listActivePorts cfg ports sh with
  | (.ok aps, t) => (.ok (aps.contains (toString port)), t)
  | (.error m, t) => (.error m, t)

/-- `PortClient.checkPortStatus`: dynamic dispatch on the speed mode. -/
def checkPortStatus (cfg : Config) (ports : PortsInput) (sh : Sh) (port : Int) :
    Except String Bool × Trace :=
  if cfg.speed = "fast" then isExistFast sh port else isExistNormal cfg ports sh port

/-- `PortClient.checkIfProcessExists`: the same dispatch, used as the
precondition gate of the Unix kill-command builder. -/
def checkIfProcessExists (cfg : Config) (ports : PortsInput) (sh : Sh) (port : Int) :
    Except String Bool × Trace :=
  if cfg.speed = "fast" then isExistFast sh port else isExistNormal cfg ports sh port

/-- One iteration of the `showPortInfo` loop: report the verdict, or
report the caught per-port error. -/
def showOnePort (cfg : Config) (ports : PortsInput) (sh : Sh) (port : Int) : Trace :=
  match checkPortStatus cfg ports sh port with
  | (.ok b, t) =>
    t.app (Trace.msg (if b then "Port " ++ toString port ++ " is active."
                      else "Port " ++ toString port ++ " is not active."))
  | (.error m, t) =>
    t.app (Trace.msg ("Error checking port " ++ toString port ++ ": " ++ m))

/-- `PortClient.showPortInfo`: the sequential per-port check loop; no
failure escapes an iteration. -/
def showPortInfo (cfg : Config) (ports : PortsInput) (sh : Sh) : List Int → Trace
  | [] => Trace.nil
  | p :: ps => (showOnePort cfg ports sh p).app (showPortInfo cfg ports sh ps)

/-- `PortClient.buildBaseCommand`: the Unix pid-resolution pipeline. -/
def buildBaseCommand (method : String) (port : Int) : String :=
  "lsof -i " ++ method ++ ":" ++ toString port ++ " | grep " ++ jsToUpper method
    ++ " | awk \x27\x7bprint $2\x7d\x27 | xargs"

/-- `PortClient.getUnixKillCommand`: consult the existence gate; an
inactive port raises `No process running on port`, an oracle failure is
rethrown unchanged, and otherwise the pipeline plus the strength-chosen
kill invocation is produced. -/
def getUnixKillCommand (cfg : Config) (ports : PortsInput) (sh : Sh) (port : Int) :
    Except String String × Trace :=
  match checkIfProcessExists cfg ports sh port with
  | (.ok true, t) =>
    (.ok (buildBaseCommand cfg.method port ++ " " ++ (if cfg.graceful then "kill" else "kill -9")), t)
  | (.ok false, t) => (.error "No process running on port", t)
  | (.error m, t) => (.error m, t)

/-- Test of the Windows line regex `^ *METHOD *[^ ]*:<port>,` on one
line: leading blanks, the uppercased method, blanks, then the token
`:<port>,` inside the first blank-free run.  (The statefulness of the
`g`-flagged regex object across `filter` iterations is not modelled;
no theorem below depends on the Windows path.) -/
def winLineTest (method : String) (port : Int) (line : String) : Bool :=
  (jsToUpper method).toList.isPrefixOf (line.toList.dropWhile (fun c => c = ' ')) &&
  containsAux (":" ++ toString port ++ ",").toList
    (((line.toList.dropWhile (fun c => c = ' ')).drop (jsToUpper method).toList.length
      |>.dropWhile (fun c => c = ' ')).takeWhile (fun c => decide (c ≠ ' ')))

/-- Capture of `/(\d+)\w*/` on one line: the first maximal digit run. -/
def firstDigitRun (line : String) : Option String :=
  match line.toList.dropWhile (fun c => !c.isDigit) with
  | [] => none
  | c :: cs => some (String.mk ((c :: cs).takeWhile Char.isDigit))

/-- `PortClient.getWindowsKillCommand`: re-probe the connection table,
filter to the protocol- and port-matching lines, extract the leading
numeric token of each and build one forceful `TaskKill`. -/
def getWindowsKillCommand (cfg : Config) (sh : Sh) (port : Int) :
    Except String String × Trace :=
  match sh "netstat -nao" with
  | .ok out =>
    (.ok ("TaskKill /F /PID " ++ String.intercalate " /PID "
        (((splitLines out).filter (winLineTest cfg.method port)).filterMap firstDigitRun)),
     Trace.cmd "netstat -nao")
  | .error m =>
    (.error ("Failed to get Windows kill command: " ++ m), Trace.cmd "netstat -nao")

/-- One iteration of the `killPorts` loop: build the platform-specific
kill command, run it, and report the outcome; any failure inside the
iteration is caught and reported for that port alone. -/
def killOnePort (cfg : Config) (ports : PortsInput) (sh : Sh) (port : Int) : Trace :=
  match (if cfg.platform = "win32" then getWindowsKillCommand cfg sh port
         else getUnixKillCommand cfg ports sh port) with
  | (.ok command, t) =>
    (t.app (if cfg.verbose then Trace.msg ("Executing: " ++ command) else Trace.nil)).app
      (match sh command with
       | .ok out =>
         (Trace.cmd command).app
           (Trace.msg ("Successfully killed port " ++ toString port ++ " " ++ out))
       | .error m =>
         (Trace.cmd command).app
           (Trace.msg ("Failed to kill port " ++ toString port ++ ": " ++ m)))
  | (.error m, t) =>
    t.app (Trace.msg ("Failed to kill port " ++ toString port ++ ": " ++ m))

/-- `PortClient.killPorts`: the sequential per-port kill loop; no
failure escapes an iteration. -/
def killPorts (cfg : Config) (ports : PortsInput) (sh : Sh) : List Int → Trace
  | [] => Trace.nil
  | p :: ps => (killOnePort cfg ports sh p).app (killPorts cfg ports sh ps)

/-- `PortClient.handlePorts`: dispatch on the action; `check` and
`isExist` share the info path, `kill` takes the termination path, and
any other action throws `Unknown action` before touching any port. -/
def handlePorts (cfg : Config) (ports : PortsInput) (sh : Sh) (ps : List Int) :
    Except String Unit × Trace :=
  if cfg.action = "check" ∨ cfg.action = "isExist" then
    (.ok (), showPortInfo cfg ports sh ps)
  else if cfg.action = "kill" then
    (.ok (), killPorts cfg ports sh ps)
  else
    (.error ("Unknown action: " ++ cfg.action), Trace.nil)

/-- `PortClient.promptUserToSelectPorts`: coerce the comma-separated
answer to numbers, index the active-port list 1-based, and drop the
falsy selections (out-of-range indices give `undefined`; a listed entry
is a non-empty string, kept). -/
def promptUserToSelectPorts (activePorts : List String) (answer : String) : List String :=
  (((jsSplit ',' answer).map jsNumber?).map (fun i? =>
      match i? with
      | some i => if 1 ≤ i ∧ i ≤ (activePorts.length : Int)
                  then activePorts.get? (i - 1).toNat else none
      | none => none)).filterMap id |>.filter (fun s => decide (s ≠ ""))

/-- `PortClient.execute`: resolve the spec (failing the whole run when
no port survives), short-circuit a dry run with the report of the
resolved set, otherwise run the interactive selection or dispatch the
resolved ports.  The selected listing entries are digit strings, on
which the `Number()` coercion into the per-port handlers is
`jsNumber?`. -/
def execute (cfg : Config) (ports : PortsInput) (sh : Sh) (answer : String) :
    Except String Unit × Trace :=
  if (parsePorts ports cfg.range).length = 0 then
    (.error "Invalid or no port(s) provided.", Trace.nil)
  else if cfg.dryRun then
    (.ok (), Trace.msg ("Dry run: Ports to operate on - "
      ++ String.intercalate ", " ((parsePorts ports cfg.range).map toString)))
  else if cfg.interactive then
    match listActivePorts cfg ports sh with
    | (.ok aps, t) =>
      match handlePorts cfg ports sh
          ((promptUserToSelectPorts aps answer).filterMap jsNumber?) with
      | (r, t2) =>
        (r, (t.app ⟨[], aps.enum.map (fun e => toString (e.1 + 1) ++ ". " ++ e.2)⟩).app t2)
    | (.error m, t) => (.error m, t)
  else
    handlePorts cfg ports sh (parsePorts ports cfg.range)

/-!
The `dist/index.js` variant (compiled from the TypeScript source).  Its
existence oracle differs from the `index.js` one: the fast check probes
`lsof -i tcp:<port>` and holds iff the trimmed stdout is non-empty, the
normal check probes `netstat -na | grep :<port>` with the same
non-emptiness verdict, and both catch a rejected probe and resolve to
`false`. -/

namespace Dist

/-- `PortClient.isExistFast` of `dist/index.js`. -/
def isExistFast (sh : Sh) (port : Int) : Bool × Trace :=
  match sh ("lsof -i tcp:" ++ toString port) with
  | .ok out => (decide (0 < (jsTrim out).length), Trace.cmd ("lsof -i tcp:" ++ toString port))
  | .error _ => (false, Trace.cmd ("lsof -i tcp:" ++ toString port))

/-- `PortClient.isExistNormal` of `dist/index.js`. -/
def isExistNormal (sh : Sh) (port : Int) : Bool × Trace :=
  match sh ("netstat -na | grep :" ++ toString port) with
  | .ok out => (decide (0 < (jsTrim out).length), Trace.cmd ("netstat -na | grep :" ++ toString port))
  | .error _ => (false, Trace.cmd ("netstat -na | grep :" ++ toString port))

end Dist

/-! Basic trace algebra. -/

@[simp] theorem Trace.app_cmds (t u : Trace) : (t.app u).cmds = t.cmds ++ u.cmds := rfl

@[simp] theorem Trace.app_msgs (t u : Trace) : (t.app u).msgs = t.msgs ++ u.msgs := rfl

@[simp] theorem Trace.nil_app (t : Trace) : Trace.nil.app t = t := by
  simp [Trace.app, Trace.nil]

@[simp] theorem Trace.app_nil (t : Trace) : t.app Trace.nil = t := by
  simp [Trace.app, Trace.nil]

theorem Trace.app_assoc (t u v : Trace) : (t.app u).app v = t.app (u.app v) := by
  simp [Trace.app]

/-- A run whose resolved port set is empty aborts with the operation
level error before any effect (shared by the explicit empty-spec claim
and the reversed-range claim). -/
theorem execute_parse_nil (cfg : Config) (ports : PortsInput) (sh : Sh) (answer : String)
    (h : parsePorts ports cfg.range = []) :
    execute cfg ports sh answer = (.error "Invalid or no port(s) provided.", Trace.nil) := by
  simp [execute, h]

/-- The kill loop processes a concatenated batch as the concatenation
of the two runs: per-port outcomes are isolated. -/
theorem killPorts_append (cfg : Config) (ports : PortsInput) (sh : Sh) (l1 l2 : List Int) :
    killPorts cfg ports sh (l1 ++ l2)
      = (killPorts cfg ports sh l1).app (killPorts cfg ports sh l2) := by
  induction l1 with
  | nil => simp [killPorts]
  | cons p ps ih => simp [killPorts, ih, Trace.app_assoc]

/-- C2: for every input spec whose resolved port set is empty, the
top-level execute operation fails with the operation-level invalid-spec
error (`Invalid or no port(s) provided.`) and the whole run aborts with
an empty trace: no probe or termination command is issued and no
per-port outcome is recorded. -/
theorem execute_empty_spec_fails (cfg : Config) (ports : PortsInput) (sh : Sh) (answer : String)
    (h : parsePorts ports cfg.range = []) :
    execute cfg ports sh answer = (.error "Invalid or no port(s) provided.", Trace.nil) :=
  execute_parse_nil cfg ports sh answer h

/-- Witness for C2 at the empty array spec. -/
theorem execute_empty_spec_fails_witness :
    parsePorts (.arr []) (Config.range ⟨"tcp", "check", false, false, false, false,
        none, none, "safe", "linux"⟩) = []
    ∧ execute ⟨"tcp", "check", false, false, false, false, none, none, "safe", "linux"⟩
        (.arr []) (fun _ => .error "unused") ""
      = (.error "Invalid or no port(s) provided.", Trace.nil) :=
  ⟨rfl, execute_empty_spec_fails ⟨"tcp", "check", false, false, false, false,
      none, none, "safe", "linux"⟩ (.arr []) (fun _ => .error "unused") "" rfl⟩

/-- C7: a range spec `A-B` with numeric bounds and `A ≤ B` resolves to
exactly the ascending consecutive integers from `A` to `B` inclusive, a
sequence of length `B - A + 1`. -/
theorem parsePorts_range_ascending (v : Option Int) (r : String) (A B : Int)
    (hsplit : (jsSplit '-' r).map jsNumber? = [some A, some B]) (hle : A ≤ B) :
    parsePorts (.scalar v) (some r)
      = (List.range (B - A + 1).toNat).map (fun i : Nat => A + (i : Int))
    ∧ ((parsePorts (.scalar v) (some r)).length : Int) = B - A + 1 := by
  have hr : r ≠ "" := by
    intro h0
    rw [h0] at hsplit
    have hnil : ((jsSplit '-' "").map jsNumber?) = [some (0 : Int)] := by decide
    rw [hnil] at hsplit
    simp at hsplit
  have hmain : parsePorts (.scalar v) (some r)
      = (List.range (B - A + 1).toNat).map (fun i : Nat => A + (i : Int)) := by
    simp only [parsePorts, if_neg hr, hsplit]
    simp [jsRangeList]
  refine ⟨hmain, ?_⟩
  rw [hmain]
  simp only [List.length_map, List.length_range]
  exact Int.toNat_of_nonneg (by omega : (0 : Int) ≤ B - A + 1)

/-- Witness for C7 at the range `3-5`. -/
theorem parsePorts_range_ascending_witness :
    (jsSplit '-' "3-5").map jsNumber? = [some 3, some 5]
    ∧ (3 : Int) ≤ 5
    ∧ parsePorts (.scalar none) (some "3-5")
        = (List.range ((5 : Int) - 3 + 1).toNat).map (fun i : Nat => 3 + (i : Int)) :=
  ⟨by decide, by decide,
   (parsePorts_range_ascending none "3-5" 3 5 (by decide) (by decide)).1⟩

/-- C10: a range spec `A-B` with numeric bounds and `A > B` resolves to
the empty port set, and the top-level execute operation then aborts with
the invalid-ports error without issuing any external command. -/
theorem parsePorts_reversed_range (v : Option Int) (r : String) (A B : Int)
    (hsplit : (jsSplit '-' r).map jsNumber? = [some A, some B]) (hgt : B < A) :
    parsePorts (.scalar v) (some r) = []
    ∧ ∀ (cfg : Config) (sh : Sh) (answer : String), cfg.range = some r →
        execute cfg (.scalar v) sh answer
          = (.error "Invalid or no port(s) provided.", Trace.nil) := by
  have hr : r ≠ "" := by
    intro h0
    rw [h0] at hsplit
    have hnil : ((jsSplit '-' "").map jsNumber?) = [some (0 : Int)] := by decide
    rw [hnil] at hsplit
    simp at hsplit
  have hmain : parsePorts (.scalar v) (some r) = [] := by
    simp only [parsePorts, if_neg hr, hsplit]
    show jsRangeList A B = []
    rw [jsRangeList, Int.toNat_of_nonpos (by omega : B - A + 1 ≤ 0)]
    rfl
  refine ⟨hmain, ?_⟩
  intro cfg sh answer hrange
  exact execute_parse_nil cfg (.scalar v) sh answer (by rw [hrange]; exact hmain)

/-- Witness for C10 at the reversed range `9-3`. -/
theorem parsePorts_reversed_range_witness :
    (jsSplit '-' "9-3").map jsNumber? = [some 9, some 3]
    ∧ (3 : Int) < 9
    ∧ parsePorts (.scalar none) (some "9-3") = []
    ∧ execute ⟨"tcp", "check", false, false, false, false, none, some "9-3", "safe", "linux"⟩
        (.scalar none) (fun _ => .error "unused") ""
      = (.error "Invalid or no port(s) provided.", Trace.nil) := by
  refine ⟨by decide, by decide,
    (parsePorts_reversed_range none "9-3" 9 3 (by decide) (by decide)).1, ?_⟩
  exact (parsePorts_reversed_range none "9-3" 9 3 (by decide) (by decide)).2
    ⟨"tcp", "check", false, false, false, false, none, some "9-3", "safe", "linux"⟩
    (fun _ => .error "unused") "" rfl

/-- C8: a dry run with a non-empty resolved port set performs zero
external command invocations and reports the fully resolved port set in
the dry-run message. -/
theorem execute_dryRun_reports (cfg : Config) (ports : PortsInput) (sh : Sh) (answer : String)
    (hdry : cfg.dryRun = true) (hne : parsePorts ports cfg.range ≠ []) :
    execute cfg ports sh answer
      = (.ok (), Trace.msg ("Dry run: Ports to operate on - "
          ++ String.intercalate ", " ((parsePorts ports cfg.range).map toString)))
    ∧ (execute cfg ports sh answer).2.cmds = [] := by
  have h : execute cfg ports sh answer
      = (.ok (), Trace.msg ("Dry run: Ports to operate on - "
          ++ String.intercalate ", " ((parsePorts ports cfg.range).map toString))) := by
    simp [execute, hdry, List.length_eq_zero, hne]
  exact ⟨h, by rw [h]; rfl⟩


/-- Witness for C8 at the port array `[8080, 3000]`. -/
theorem execute_dryRun_reports_witness :
    (⟨"tcp", "check", false, true, false, false, none, none, "safe", "linux"⟩ : Config).dryRun
      = true
    ∧ parsePorts (.arr [some 8080, some 3000]) none ≠ []
    ∧ execute ⟨"tcp", "check", false, true, false, false, none, none, "safe", "linux"⟩
        (.arr [some 8080, some 3000]) (fun _ => .error "unused") ""
      = (.ok (), Trace.msg "Dry run: Ports to operate on - 8080, 3000") :=
  ⟨rfl, by decide,
   (execute_dryRun_reports ⟨"tcp", "check", false, true, false, false, none, none,
      "safe", "linux"⟩ (.arr [some 8080, some 3000]) (fun _ => .error "unused") ""
      rfl (by decide)).1⟩

/-- C9: any action value outside check, isExist and kill makes the
dispatch fail the whole run with the `Unknown action` error and an
empty trace (no per-port processing), and a non-interactive, non-dry
run with resolvable ports propagates that failure out of execute. -/
theorem handlePorts_unknown_action (cfg : Config) (ports : PortsInput) (sh : Sh)
    (answer : String) (ps : List Int)
    (h1 : cfg.action ≠ "check") (h2 : cfg.action ≠ "isExist") (h3 : cfg.action ≠ "kill") :
    handlePorts cfg ports sh ps = (.error ("Unknown action: " ++ cfg.action), Trace.nil)
    ∧ (cfg.dryRun = false → cfg.interactive = false → parsePorts ports cfg.range ≠ [] →
        execute cfg ports sh answer
          = (.error ("Unknown action: " ++ cfg.action), Trace.nil)) := by
  have hh : handlePorts cfg ports sh ps
      = (.error ("Unknown action: " ++ cfg.action), Trace.nil) := by
    simp [handlePorts, h1, h2, h3]
  refine ⟨hh, fun hdry hint hne => ?_⟩
  have hh2 : handlePorts cfg ports sh (parsePorts ports cfg.range)
      = (.error ("Unknown action: " ++ cfg.action), Trace.nil) := by
    simp [handlePorts, h1, h2, h3]
  simp [execute, hdry, hint, List.length_eq_zero, hne, hh2]

/-- Witness for C9 at the action `remove`. -/
theorem handlePorts_unknown_action_witness :
    (⟨"tcp", "remove", false, false, false, false, none, none, "safe", "linux"⟩ : Config).action
      ≠ "check"
    ∧ execute ⟨"tcp", "remove", false, false, false, false, none, none, "safe", "linux"⟩
        (.scalar (some 8080)) (fun _ => .error "unused") ""
      = (.error "Unknown action: remove", Trace.nil) :=
  ⟨by decide,
   (handlePorts_unknown_action ⟨"tcp", "remove", false, false, false, false, none, none,
      "safe", "linux"⟩ (.scalar (some 8080)) (fun _ => .error "unused") "" []
      (by decide) (by decide) (by decide)).2 rfl rfl (by decide)⟩

/-- C1: when the kill action reaches a port that the existence gate
reports inactive, the Unix kill-command construction fails with the
`No process running on port` error, the only commands issued for that
port are the single probe of the gate itself (no termination command is
executed), the failure is recorded as that port's console report, and
the kill loop still processes every other port of the batch. -/
theorem killPorts_inactive_noProcess (cfg : Config) (ports : PortsInput) (sh : Sh)
    (p : Int) (t : Trace) (pre post : List Int)
    (hplat : cfg.platform ≠ "win32")
    (hcheck : checkIfProcessExists cfg ports sh p = (.ok false, t)) :
    getUnixKillCommand cfg ports sh p = (.error "No process running on port", t)
    ∧ (t.cmds = ["lsof -i :" ++ toString p] ∨ t.cmds = ["lsof -i -P -n"])
    ∧ killOnePort cfg ports sh p
        = t.app (Trace.msg ("Failed to kill port " ++ toString p
            ++ ": " ++ "No process running on port"))
    ∧ killPorts cfg ports sh (pre ++ p :: post)
        = (killPorts cfg ports sh pre).app
            ((killOnePort cfg ports sh p).app (killPorts cfg ports sh post)) := by
  have hkc : getUnixKillCommand cfg ports sh p = (.error "No process running on port", t) := by
    simp [getUnixKillCommand, hcheck]
  have hcm : t.cmds = ["lsof -i :" ++ toString p] ∨ t.cmds = ["lsof -i -P -n"] := by
    by_cases hs : cfg.speed = "fast"
    · left
      cases hsh : sh ("lsof -i :" ++ toString p) with
      | ok out =>
        simp [checkIfProcessExists, hs, isExistFast, hsh] at hcheck
        rw [← hcheck.2]
        rfl
      | error m =>
        simp [checkIfProcessExists, hs, isExistFast, hsh] at hcheck
    · right
      cases hsh : sh "lsof -i -P -n" with
      | ok out =>
        simp [checkIfProcessExists, hs, isExistNormal, listActivePorts, hplat, hsh] at hcheck
        rw [← hcheck.2]
        rfl
      | error m =>
        simp [checkIfProcessExists, hs, isExistNormal, listActivePorts, hplat, hsh] at hcheck
  have hko : killOnePort cfg ports sh p
      = t.app (Trace.msg ("Failed to kill port " ++ toString p
          ++ ": " ++ "No process running on port")) := by
    simp [killOnePort, hplat, hkc]
  refine ⟨hkc, hcm, hko, ?_⟩
  rw [killPorts_append]
  rfl

/-- Witness for C1: a fast-mode kill on port 8080 whose probe output is
empty, with port 3000 also in the batch. -/
theorem killPorts_inactive_noProcess_witness :
    checkIfProcessExists ⟨"tcp", "kill", false, false, false, false, none, none,
        "fast", "linux"⟩ (.arr [some 8080, some 3000]) (fun _ => .ok "") 8080
      = (.ok false, Trace.cmd "lsof -i :8080")
    ∧ getUnixKillCommand ⟨"tcp", "kill", false, false, false, false, none, none,
        "fast", "linux"⟩ (.arr [some 8080, some 3000]) (fun _ => .ok "") 8080
      = (.error "No process running on port", Trace.cmd "lsof -i :8080") :=
  ⟨rfl,
   (killPorts_inactive_noProcess ⟨"tcp", "kill", false, false, false, false, none, none,
      "fast", "linux"⟩ (.arr [some 8080, some 3000]) (fun _ => .ok "") 8080
      (Trace.cmd "lsof -i :8080") [] [3000] (by decide) rfl).1⟩

/-- C3 counterexample: the fast oracle of `dist/index.js` reports a
port active on probe output that is non-empty but holds no `LISTEN`
marker, so the claim that every fast-mode existence verdict is the
`LISTEN`-marker check fails on this implementation. -/
theorem dist_fast_nonempty_counter :
    (Dist.isExistFast (fun _ => .ok "php 123 CLOSE_WAIT") 8080).1 = true
    ∧ strContains "php 123 CLOSE_WAIT" "LISTEN" = false :=
  ⟨rfl, rfl⟩

/-- C3 amended: the `index.js` fast oracle issues exactly one targeted
probe `lsof -i :<port>` and reports the port active iff the raw output
contains the literal `LISTEN`; the `dist/index.js` fast oracle instead
issues `lsof -i tcp:<port>` and reports the port active iff the trimmed
output is non-empty. -/
theorem fast_oracle_listen_policy (sh sh2 : Sh) (p : Int) (out out2 : String)
    (h : sh ("lsof -i :" ++ toString p) = .ok out)
    (h2 : sh2 ("lsof -i tcp:" ++ toString p) = .ok out2) :
    isExistFast sh p
      = (.ok (strContains out "LISTEN"), Trace.cmd ("lsof -i :" ++ toString p))
    ∧ Dist.isExistFast sh2 p
      = (decide (0 < (jsTrim out2).length), Trace.cmd ("lsof -i tcp:" ++ toString p)) := by
  constructor
  · simp [isExistFast, h]
  · simp [Dist.isExistFast, h2]

/-- Witness for C3 at port 8080 with an lsof LISTEN line on one side
and a bare non-empty output on the other. -/
theorem fast_oracle_listen_policy_witness :
    ((fun _ => .ok "node TCP *:8080 (LISTEN)") : Sh) ("lsof -i :" ++ toString (8080 : Int))
      = .ok "node TCP *:8080 (LISTEN)"
    ∧ isExistFast (fun _ => .ok "node TCP *:8080 (LISTEN)") 8080
      = (.ok (strContains "node TCP *:8080 (LISTEN)" "LISTEN"), Trace.cmd "lsof -i :8080") :=
  ⟨rfl,
   (fast_oracle_listen_policy (fun _ => .ok "node TCP *:8080 (LISTEN)")
      (fun _ => .ok "x") 8080 "node TCP *:8080 (LISTEN)" "x" rfl rfl).1⟩

/-- C4 counterexample: the `index.js` oracle does fail outward: a
rejected probe makes `isExistFast` return the error rather than the
verdict false, and a rejected listing makes `isExistNormal` rethrow the
wrapped listing failure. -/
theorem oracle_failure_propagates_counter :
    isExistFast (fun _ => .error "spawn lsof ENOENT") 8080
      = (.error "spawn lsof ENOENT", Trace.cmd "lsof -i :8080")
    ∧ isExistNormal ⟨"tcp", "check", false, false, false, false, none, none,
        "safe", "linux"⟩ (.scalar (some 8080)) (fun _ => .error "spawn lsof ENOENT") 8080
      = (.error "Failed to list active ports: spawn lsof ENOENT", Trace.cmd "lsof -i -P -n") :=
  ⟨rfl, rfl⟩

/-- C4 amended: the `dist/index.js` oracle catches a rejected probe
inside both checks and resolves the query to false; the `index.js`
oracle instead propagates the rejection to its caller, where the
per-port loop catches it and reports a per-port error message. -/
theorem dist_oracle_resolves_failure (cfg : Config) (ports : PortsInput) (sh : Sh)
    (p : Int) (m1 m2 m3 : String)
    (h1 : sh ("lsof -i tcp:" ++ toString p) = .error m1)
    (h2 : sh ("netstat -na | grep :" ++ toString p) = .error m2)
    (h3 : sh ("lsof -i :" ++ toString p) = .error m3)
    (hfast : cfg.speed = "fast") :
    Dist.isExistFast sh p = (false, Trace.cmd ("lsof -i tcp:" ++ toString p))
    ∧ Dist.isExistNormal sh p = (false, Trace.cmd ("netstat -na | grep :" ++ toString p))
    ∧ isExistFast sh p = (.error m3, Trace.cmd ("lsof -i :" ++ toString p))
    ∧ showOnePort cfg ports sh p
      = (Trace.cmd ("lsof -i :" ++ toString p)).app
          (Trace.msg ("Error checking port " ++ toString p ++ ": " ++ m3)) := by
  refine ⟨?_, ?_, ?_, ?_⟩
  · simp [Dist.isExistFast, h1]
  · simp [Dist.isExistNormal, h2]
  · simp [isExistFast, h3]
  · simp [showOnePort, checkPortStatus, hfast, isExistFast, h3]

/-- Witness for C4: a shell whose every command is rejected with the
message `boom`, queried at port 8080 in fast mode. -/
theorem dist_oracle_resolves_failure_witness :
    ((fun _ => .error "boom") : Sh) ("lsof -i tcp:" ++ toString (8080 : Int)) = .error "boom"
    ∧ Dist.isExistFast (fun _ => .error "boom") 8080
      = (false, Trace.cmd "lsof -i tcp:8080")
    ∧ isExistFast (fun _ => .error "boom") 8080
      = (.error "boom", Trace.cmd "lsof -i :8080") := by
  refine ⟨rfl, ?_, ?_⟩
  · exact (dist_oracle_resolves_failure
      ⟨"tcp", "check", false, false, false, false, none, none, "fast", "linux"⟩
      (.scalar (some 8080)) (fun _ => .error "boom") 8080 "boom" "boom" "boom"
      rfl rfl rfl rfl).1
  · exact (dist_oracle_resolves_failure
      ⟨"tcp", "check", false, false, false, false, none, none, "fast", "linux"⟩
      (.scalar (some 8080)) (fun _ => .error "boom") 8080 "boom" "boom" "boom"
      rfl rfl rfl rfl).2.2.1

/-- C5 counterexample: a single safe-mode check run over the two ports
8080 and 3000 issues the full-listing probe twice, once per port, so
the listing is not fetched exactly once per run. -/
theorem safe_listing_refetch_counter :
    (execute ⟨"tcp", "check", false, false, false, false, none, none, "safe", "linux"⟩
        (.arr [some 8080, some 3000]) (fun _ => .ok "a *:8080 (LISTEN)") "").2.cmds
      = ["lsof -i -P -n", "lsof -i -P -n"]
    ∧ (execute ⟨"tcp", "check", false, false, false, false, none, none, "safe", "linux"⟩
        (.arr [some 8080, some 3000]) (fun _ => .ok "a *:8080 (LISTEN)") "").2.cmds.length
      = 2 :=
  ⟨rfl, rfl⟩

/-- C5 amended: in safe mode each existence query fetches the full
listing itself (its trace is exactly one listing probe), the verdict is
the membership test of the stringified port number against the listing
parsed from that fetch, and a batch of N ports therefore issues N
listing probes, one per port. -/
theorem safe_oracle_per_port_fetch (cfg : Config) (ports : PortsInput) (sh : Sh)
    (p : Int) (out : String)
    (hplat : cfg.platform ≠ "win32") (hspeed : cfg.speed ≠ "fast")
    (hsh : sh "lsof -i -P -n" = .ok out) :
    isExistNormal cfg ports sh p
      = (.ok ((parseUnixPorts (splitLines out)).contains (toString p)),
         Trace.cmd "lsof -i -P -n")
    ∧ checkPortStatus cfg ports sh p = isExistNormal cfg ports sh p
    ∧ ∀ ps : List Int, (showPortInfo cfg ports sh ps).cmds
        = ps.map (fun _ => "lsof -i -P -n") := by
  have key : ∀ q : Int, isExistNormal cfg ports sh q
      = (.ok ((parseUnixPorts (splitLines out)).contains (toString q)),
         Trace.cmd "lsof -i -P -n") := by
    intro q
    simp [isExistNormal, listActivePorts, hplat, hspeed, hsh]
  refine ⟨key p, by simp [checkPortStatus, hspeed], ?_⟩
  intro ps
  induction ps with
  | nil => rfl
  | cons q qs ih =>
    simp [showPortInfo, showOnePort, checkPortStatus, hspeed, key q, ih, Trace.cmd, Trace.msg]

/-- Witness for C5: a safe-mode configuration over a one-line listing,
queried at 8080, with the two-port batch [8080, 3000]. -/
theorem safe_oracle_per_port_fetch_witness :
    ((fun _ => .ok "a *:8080 (LISTEN)") : Sh) "lsof -i -P -n" = .ok "a *:8080 (LISTEN)"
    ∧ isExistNormal ⟨"tcp", "check", false, false, false, false, none, none,
        "safe", "linux"⟩ (.arr [some 8080, some 3000]) (fun _ => .ok "a *:8080 (LISTEN)") 8080
      = (.ok ((parseUnixPorts (splitLines "a *:8080 (LISTEN)")).contains (toString (8080 : Int))),
         Trace.cmd "lsof -i -P -n")
    ∧ (showPortInfo ⟨"tcp", "check", false, false, false, false, none, none,
        "safe", "linux"⟩ (.arr [some 8080, some 3000])
        (fun _ => .ok "a *:8080 (LISTEN)") [8080, 3000]).cmds
      = ([8080, 3000] : List Int).map (fun _ => "lsof -i -P -n") := by
  refine ⟨rfl, ?_, ?_⟩
  · exact (safe_oracle_per_port_fetch
      ⟨"tcp", "check", false, false, false, false, none, none, "safe", "linux"⟩
      (.arr [some 8080, some 3000]) (fun _ => .ok "a *:8080 (LISTEN)") 8080
      "a *:8080 (LISTEN)" (by decide) (by decide) rfl).1
  · exact (safe_oracle_per_port_fetch
      ⟨"tcp", "check", false, false, false, false, none, none, "safe", "linux"⟩
      (.arr [some 8080, some 3000]) (fun _ => .ok "a *:8080 (LISTEN)") 8080
      "a *:8080 (LISTEN)" (by decide) (by decide) rfl).2.2 [8080, 3000]

/-- C6: the general-listing Unix dialect applied to the raw text
`tcp 0 0 0.0.0.0:8080 0.0.0.0:* LISTEN` yields no port record at all
(its regex only matches digits followed by an arrow or by a
parenthesised state marker, and this netstat-style line has the bare
word LISTEN), so in particular the entry 8080 is absent — against both
the claim and the repository's own unit test, which expect [8080]. -/
theorem parseUnixPorts_netstat_line :
    parseUnixPorts (splitLines "tcp 0 0 0.0.0.0:8080 0.0.0.0:* LISTEN") = []
    ∧ (parseUnixPorts (splitLines "tcp 0 0 0.0.0.0:8080 0.0.0.0:* LISTEN")).contains "8080"
      = false :=
  ⟨rfl, rfl⟩
